import Mathlib

/-!
# Verification of `StorageObject` (python_storageObject)

Shallow embedding of `src/storageObject/storageobject.py`.

The class `StorageObject` wraps a Python `dict` (`self._data`) behind a
re-entrant lock.  In this single-threaded embedding every method body is one
critical section, so the lock is elided and each method is a pure function of
the dictionary state.

Python values are modelled by `PyVal` (enough constructors for the behaviours
under study: `None`, integers, strings, and lists of integers — lists being
the representative unhashable type used by the repository's own tests).  A Python
`dict` is an insertion-ordered association list with unique keys; every dict
primitive (`d[k] = v`, `k in d`, `d.get(k, default)`, `d.pop(k, None)`) first
hashes the key and raises `TypeError` when the key is unhashable, which the
embedding models with `Except PyErr`.
-/

set_option autoImplicit false

namespace StorageSpec

/-- A Python runtime value, restricted to the shapes the claims exercise. -/
inductive PyVal where
  | none
  | int (n : Int)
  | str (s : String)
  | list (xs : List Int)
deriving DecidableEq

/-- The only error the source can surface: Python's `TypeError`
(raised by every `dict` primitive on an unhashable key, and by iterating
over `None`). -/
inductive PyErr where
  | typeError
deriving DecidableEq

/-- Whether a Python value is hashable: `None`, `int` and `str` are,
`list` is not. -/
def PyVal.hashable : PyVal → Bool
  | .list _ => false
  | _ => true

/-- A Python `dict`: an insertion-ordered association list.  All reachable
states have pairwise-distinct keys (see `keysNodup`). -/
abbrev PyDict := List (PyVal × PyVal)

/-- `d[k] = v` after the key has been hashed: replace the value of the
(unique) entry with key `k` in place, or append a new entry at the end —
CPython dict assignment preserves insertion order. -/
def dictAssign : PyDict → PyVal → PyVal → PyDict
  | [], k, v => [(k, v)]
  | (k0, v0) :: rest, k, v =>
    if k0 = k then (k0, v) :: rest else (k0, v0) :: dictAssign rest k v

/-- `d.get(k)` after the key has been hashed: the value of the first (unique)
entry with key `k`, if any. -/
def dictLookup : PyDict → PyVal → Option PyVal
  | [], _ => Option.none
  | (k0, v0) :: rest, k => if k0 = k then Option.some v0 else dictLookup rest k

/-- `d.pop(k, None)` after the key has been hashed: drop the first (unique)
entry with key `k`, if any. -/
def dictDelete : PyDict → PyVal → PyDict
  | [], _ => []
  | (k0, v0) :: rest, k => if k0 = k then rest else (k0, v0) :: dictDelete rest k

/-- The dict invariant: keys are pairwise distinct (no key of an entry
reappears later in the list). -/
def keysNodup : PyDict → Bool
  | [] => true
  | (k0, _) :: rest => (dictLookup rest k0).isNone && keysNodup rest

/-- `self._data[key] = value`: hash the key, then assign. -/
def pySetItem (d : PyDict) (k v : PyVal) : Except PyErr PyDict :=
  if k.hashable then Except.ok (dictAssign d k v) else Except.error PyErr.typeError

/-- `key in self._data`: hash the key, then look it up. -/
def pyContains (d : PyDict) (k : PyVal) : Except PyErr Bool :=
  if k.hashable then Except.ok (dictLookup d k).isSome else Except.error PyErr.typeError

/-- `self._data.get(key, default)`: hash the key, then look it up, falling
back to `default`. -/
def pyGet (d : PyDict) (k default : PyVal) : Except PyErr PyVal :=
  if k.hashable then Except.ok ((dictLookup d k).getD default) else Except.error PyErr.typeError

/-- `self._data.pop(key, None)`: hash the key, then delete it if present. -/
def pyPop (d : PyDict) (k : PyVal) : Except PyErr PyDict :=
  if k.hashable then Except.ok (dictDelete d k) else Except.error PyErr.typeError

/-- The state of a `StorageObject`: its `_data` dictionary (the lock carries
no observable state in a single-threaded embedding). -/
structure StorageObject where
  _data : PyDict
deriving DecidableEq

/-- `StorageObject.__init__`: `self._data = {}`. -/
def StorageObject.init : StorageObject := ⟨[]⟩

/-- `set(self, key, value)`: `self._data[key] = value`. -/
def StorageObject.set (st : StorageObject) (key value : PyVal) : Except PyErr StorageObject :=
  (pySetItem st._data key value).map StorageObject.mk

/-- `set_many(self, data)`: `for key, value in data.items(): self._data[key] = value`.
The input dict is given by its entry list in iteration order. -/
def StorageObject.set_many (st : StorageObject) : List (PyVal × PyVal) → Except PyErr StorageObject
  | [] => Except.ok st
  | (k, v) :: rest => do
    let d ← pySetItem st._data k v
    StorageObject.set_many ⟨d⟩ rest

/-- `has(self, key)`: `return key in self._data`. -/
def StorageObject.has (st : StorageObject) (key : PyVal) : Except PyErr Bool :=
  pyContains st._data key

/-- `get(self, key, default=None)`: `return self._data.get(key, default)`.
The omitted-default call `get(key)` is `st.get key PyVal.none`. -/
def StorageObject.get (st : StorageObject) (key default : PyVal) : Except PyErr PyVal :=
  pyGet st._data key default

/-- The dict comprehension `{key: self._data.get(key, default) for key in keys}`,
built left to right into the accumulator `acc`. -/
def dictComp (data : PyDict) (acc : PyDict) (default : PyVal) : List PyVal → Except PyErr PyDict
  | [] => Except.ok acc
  | k :: rest => do
    let v ← pyGet data k default
    let acc2 ← pySetItem acc k v
    dictComp data acc2 default rest

/-- `get_many(self, keys, default=None)`:
`return {key: self._data.get(key, default) for key in keys}`.
`keys` is `Option`-wrapped because the tests call `get_many(None)`; iterating
over `None` raises `TypeError`.  Note the source returns a *dict*, not a list. -/
def StorageObject.get_many (st : StorageObject) (keys : Option (List PyVal)) (default : PyVal) :
    Except PyErr PyDict :=
  match keys with
  | Option.none => Except.error PyErr.typeError
  | Option.some ks => dictComp st._data [] default ks

/-- `remove(self, key)`: `self._data.pop(key, None)`. -/
def StorageObject.remove (st : StorageObject) (key : PyVal) : Except PyErr StorageObject :=
  (pyPop st._data key).map StorageObject.mk

/-- `Except.isOk` as a plain function on our error type. -/
def exceptIsOk {α : Type} : Except PyErr α → Bool
  | Except.ok _ => true
  | Except.error _ => false

/-- The model of the expected (spec/tests) `get_many`: an ordered list of
values, one per key, duplicates resolved independently.  Used only to state
what the source diverges from. -/
def specGetManyList (d : PyDict) (default : PyVal) (keys : List PyVal) : List PyVal :=
  keys.map (fun k => (dictLookup d k).getD default)

/-! ## Lemmas about the dict primitives -/

theorem dictLookup_dictAssign_self (d : PyDict) (k v : PyVal) :
    dictLookup (dictAssign d k v) k = Option.some v := by
  induction d with
  | nil => simp [dictAssign, dictLookup]
  | cons p rest ih =>
    obtain ⟨k0, v0⟩ := p
    by_cases h : k0 = k
    · simp [dictAssign, dictLookup, h]
    · simp [dictAssign, dictLookup, h, ih]

theorem dictLookup_dictAssign_ne (d : PyDict) (k k' v : PyVal) (h : k ≠ k') :
    dictLookup (dictAssign d k v) k' = dictLookup d k' := by
  induction d with
  | nil => simp [dictAssign, dictLookup, h]
  | cons p rest ih =>
    obtain ⟨k0, v0⟩ := p
    by_cases h0 : k0 = k
    · subst h0
      simp [dictAssign, dictLookup, h]
    · simp [dictAssign, dictLookup, h0, ih]

theorem dictLookup_dictDelete_ne (d : PyDict) (k k' : PyVal) (h : k ≠ k') :
    dictLookup (dictDelete d k) k' = dictLookup d k' := by
  induction d with
  | nil => simp [dictDelete]
  | cons p rest ih =>
    obtain ⟨k0, v0⟩ := p
    by_cases h0 : k0 = k
    · subst h0
      simp [dictDelete, dictLookup, h]
    · simp [dictDelete, dictLookup, h0, ih]

theorem dictDelete_of_lookup_none (d : PyDict) (k : PyVal)
    (h : dictLookup d k = Option.none) : dictDelete d k = d := by
  induction d with
  | nil => simp [dictDelete]
  | cons p rest ih =>
    obtain ⟨k0, v0⟩ := p
    by_cases h0 : k0 = k
    · simp [dictLookup, h0] at h
    · simp [dictLookup, h0] at h
      simp [dictDelete, h0, ih h]

theorem dictDelete_idem (d : PyDict) (k : PyVal) (h : keysNodup d = true) :
    dictDelete (dictDelete d k) k = dictDelete d k := by
  induction d with
  | nil => simp [dictDelete]
  | cons p rest ih =>
    obtain ⟨k0, v0⟩ := p
    simp only [keysNodup, Bool.and_eq_true, Option.isNone_iff_eq_none] at h
    by_cases h0 : k0 = k
    · subst h0
      simp [dictDelete, dictDelete_of_lookup_none rest k0 h.1]
    · simp [dictDelete, h0, ih h.2]

/-- The dict invariant is preserved by assignment (so every state reachable
through the API satisfies it). -/
theorem keysNodup_dictAssign (d : PyDict) (k v : PyVal) (h : keysNodup d = true) :
    keysNodup (dictAssign d k v) = true := by
  induction d with
  | nil => simp [dictAssign, keysNodup, dictLookup]
  | cons p rest ih =>
    obtain ⟨k0, v0⟩ := p
    simp only [keysNodup, Bool.and_eq_true, Option.isNone_iff_eq_none] at h
    by_cases h0 : k0 = k
    · subst h0
      simp [dictAssign, keysNodup, h.1, h.2]
    · simp only [dictAssign, h0, if_false, keysNodup, Bool.and_eq_true,
        Option.isNone_iff_eq_none]
      exact ⟨by rw [dictLookup_dictAssign_ne rest k k0 v (fun hh => h0 hh.symm)]; exact h.1,
        ih h.2⟩

/-- With a string key, `set` always succeeds, producing the assigned dict. -/
theorem set_str_ok (st : StorageObject) (s : String) (v : PyVal) :
    st.set (PyVal.str s) v = Except.ok ⟨dictAssign st._data (PyVal.str s) v⟩ := rfl

/-- With a string key, `remove` always succeeds, producing the deleted dict. -/
theorem remove_str_ok (st : StorageObject) (s : String) :
    st.remove (PyVal.str s) = Except.ok ⟨dictDelete st._data (PyVal.str s)⟩ := rfl

/-- The dict invariant is preserved by deletion. -/
theorem keysNodup_dictDelete (d : PyDict) (k : PyVal) (h : keysNodup d = true) :
    keysNodup (dictDelete d k) = true := by
  induction d with
  | nil => simp [dictDelete, keysNodup]
  | cons p rest ih =>
    obtain ⟨k0, v0⟩ := p
    simp only [keysNodup, Bool.and_eq_true, Option.isNone_iff_eq_none] at h
    by_cases h0 : k0 = k
    · exact by simp [dictDelete, h0, h.2]
    · simp only [dictDelete, h0, if_false, keysNodup, Bool.and_eq_true,
        Option.isNone_iff_eq_none]
      exact ⟨by rw [dictLookup_dictDelete_ne rest k k0 (fun hh => h0 hh.symm)]; exact h.1,
        ih h.2⟩

/-! ## Claim theorems -/

/-- C1: the claim says `get_many(keys, default)` returns a result sequence of
the same length and order as `keys`, with duplicate keys yielding duplicate
entries.  The source instead returns a dict comprehension: with stored
`{a: 1, b: 2}`, `get_many([a, x, a])` evaluates to the two-entry dict
`{a: 1, x: None}` — duplicates collapse and the result is a key-to-value
mapping of length 2, not the three-entry list `[1, None, 1]` that the claim
(and the repository's own tests) require. -/
theorem C1_get_many_is_dict_and_collapses_duplicates :
    (StorageObject.init.set_many
        [(PyVal.str "a", PyVal.int 1), (PyVal.str "b", PyVal.int 2)]).bind
      (fun st => st.get_many
        (Option.some [PyVal.str "a", PyVal.str "x", PyVal.str "a"]) PyVal.none)
    = Except.ok [(PyVal.str "a", PyVal.int 1), (PyVal.str "x", PyVal.none)] ∧
    ([(PyVal.str "a", PyVal.int 1), (PyVal.str "x", PyVal.none)] : PyDict).length = 2 ∧
    [PyVal.str "a", PyVal.str "x", PyVal.str "a"].length = 3 ∧
    specGetManyList [(PyVal.str "a", PyVal.int 1), (PyVal.str "b", PyVal.int 2)] PyVal.none
      [PyVal.str "a", PyVal.str "x", PyVal.str "a"]
    = [PyVal.int 1, PyVal.none, PyVal.int 1] :=
  ⟨rfl, rfl, rfl, rfl⟩

/-- C2: the claim says `get_many` on an empty or absent/null `keys` returns an
empty sequence and raises no error.  The empty-collection half holds in the
source (the comprehension over `[]` yields `{}`), but `get_many(None)`
iterates over `None` and raises `TypeError` — the repository's own test
`test_get_many_with_none_keys` expects `[]` instead. -/
theorem C2_get_many_empty_ok_but_none_raises :
    (∀ (st : StorageObject) (d : PyVal),
      st.get_many (Option.some []) d = Except.ok []) ∧
    StorageObject.init.get_many Option.none PyVal.none = Except.error PyErr.typeError :=
  ⟨fun _ _ => rfl, rfl⟩

/-- C3 counterexample: at the unhashable key `[]`, `has`, `get` and `remove`
all reject with `TypeError` — yet `set` does *not* complete without raising:
dict assignment hashes the key too, so `set([], 0)` raises the same
`TypeError`, refuting the claim as stated. -/
theorem C3_cex_set_also_raises :
    StorageObject.init.has (PyVal.list []) = Except.error PyErr.typeError ∧
    StorageObject.init.get (PyVal.list []) PyVal.none = Except.error PyErr.typeError ∧
    StorageObject.init.remove (PyVal.list []) = Except.error PyErr.typeError ∧
    StorageObject.init.set (PyVal.list []) (PyVal.int 0) = Except.error PyErr.typeError :=
  ⟨rfl, rfl, rfl, rfl⟩

/-- C3 amended: for every key that `has` rejects with `TypeError` (an
unhashable key), `set(key, value)` raises the same `TypeError`: the write
path validates (hashes) the key exactly as the lookup path does. -/
theorem C3_set_rejects_unhashable_like_has (st : StorageObject) (k v : PyVal)
    (h : st.has k = Except.error PyErr.typeError) :
    st.set k v = Except.error PyErr.typeError := by
  by_cases hk : k.hashable = true
  · simp [StorageObject.has, pyContains, hk] at h
  · simp [StorageObject.set, pySetItem, hk, Except.map]

/-- C3 witness: at the concrete unhashable key `[]` the hypothesis of the
amended claim holds and `set` raises. -/
theorem C3_set_rejects_unhashable_like_has_witness :
    StorageObject.init.has (PyVal.list []) = Except.error PyErr.typeError ∧
    StorageObject.init.set (PyVal.list []) (PyVal.int 7) = Except.error PyErr.typeError :=
  ⟨rfl, C3_set_rejects_unhashable_like_has StorageObject.init (PyVal.list []) (PyVal.int 7) rfl⟩

/-- C4: every unhashable key makes `has`, `get` and `remove` raise
`TypeError`; every string key makes all three succeed; and the other normal
outcomes (missing key, empty batch) raise nothing: `get_many([])` returns the
empty dict and `set_many({})` returns the state unchanged. -/
theorem C4_invalid_key_raises_valid_key_never (st : StorageObject) (k d : PyVal) :
    (k.hashable = false →
      st.has k = Except.error PyErr.typeError ∧
      st.get k d = Except.error PyErr.typeError ∧
      st.remove k = Except.error PyErr.typeError) ∧
    (∀ s : String,
      exceptIsOk (st.has (PyVal.str s)) = true ∧
      exceptIsOk (st.get (PyVal.str s) d) = true ∧
      exceptIsOk (st.remove (PyVal.str s)) = true) ∧
    st.get_many (Option.some []) d = Except.ok [] ∧
    st.set_many [] = Except.ok st := by
  refine ⟨fun hk => ?_, fun s => ?_, rfl, rfl⟩
  · simp [StorageObject.has, StorageObject.get, StorageObject.remove,
      pyContains, pyGet, pyPop, hk, Except.map]
  · simp [StorageObject.has, StorageObject.get, StorageObject.remove,
      pyContains, pyGet, pyPop, PyVal.hashable, exceptIsOk, Except.map]

/-- C4 witness: at the unhashable key `[]` all three lookups raise, and at
the string key `"k"` none of them does. -/
theorem C4_invalid_key_raises_valid_key_never_witness :
    (PyVal.list []).hashable = false ∧
    StorageObject.init.has (PyVal.list []) = Except.error PyErr.typeError ∧
    exceptIsOk (StorageObject.init.has (PyVal.str "k")) = true :=
  ⟨rfl,
    ((C4_invalid_key_raises_valid_key_never StorageObject.init (PyVal.list []) PyVal.none).1
      rfl).1,
    (((C4_invalid_key_raises_valid_key_never StorageObject.init (PyVal.list [])
      PyVal.none).2.1) "k").1⟩

/-- C5: after `set(k, None)`, `has(k)` is `True` and `get(k, fallback)`
returns `None`, not the fallback — a stored null is a present entry,
distinguishable from absence. -/
theorem C5_stored_none_is_present (st : StorageObject) (s : String) (d : PyVal) :
    (st.set (PyVal.str s) PyVal.none).bind
      (fun st1 => st1.has (PyVal.str s)) = Except.ok true ∧
    (st.set (PyVal.str s) PyVal.none).bind
      (fun st1 => st1.get (PyVal.str s) d) = Except.ok PyVal.none := by
  constructor <;>
    simp [StorageObject.set, StorageObject.has, StorageObject.get, pySetItem, pyContains,
      pyGet, PyVal.hashable, Except.map, Except.bind, dictLookup_dictAssign_self]

/-- C6: `set(k, v1); set(k, v2); get(k, d)` returns `v2` — `set` on an
existing key fully replaces the prior value. -/
theorem C6_set_overwrites (st : StorageObject) (s : String) (v1 v2 d : PyVal) :
    (st.set (PyVal.str s) v1).bind (fun st1 =>
      (st1.set (PyVal.str s) v2).bind (fun st2 =>
        st2.get (PyVal.str s) d)) = Except.ok v2 := by
  simp [StorageObject.set, StorageObject.get, pySetItem, pyGet, PyVal.hashable,
    Except.map, Except.bind, dictLookup_dictAssign_self]

/-- C7: on a dict state (pairwise-distinct keys, as every reachable `_data`
is), `remove(k)` twice equals `remove(k)` once, and `remove(k)` when `k` is
absent returns the state unchanged without error. -/
theorem C7_remove_idempotent (st : StorageObject) (s : String)
    (h : keysNodup st._data = true) :
    (st.remove (PyVal.str s)).bind
      (fun st1 => st1.remove (PyVal.str s)) = st.remove (PyVal.str s) ∧
    (st.has (PyVal.str s) = Except.ok false →
      st.remove (PyVal.str s) = Except.ok st) := by
  constructor
  · simp [StorageObject.remove, pyPop, PyVal.hashable, Except.map, Except.bind,
      dictDelete_idem st._data (PyVal.str s) h]
  · intro habs
    have hl : dictLookup st._data (PyVal.str s) = Option.none := by
      cases hl : dictLookup st._data (PyVal.str s) with
      | none => rfl
      | some v => simp [StorageObject.has, pyContains, PyVal.hashable, hl] at habs
    simp [StorageObject.remove, pyPop, PyVal.hashable, Except.map,
      dictDelete_of_lookup_none st._data (PyVal.str s) hl]

/-- C7 witness: on the concrete one-entry store `{"k": 1}` both halves hold:
double removal of `"k"` equals single removal, and removing the absent key
`"x"` returns the store unchanged. -/
theorem C7_remove_idempotent_witness :
    keysNodup (StorageObject.mk [(PyVal.str "k", PyVal.int 1)])._data = true ∧
    ((StorageObject.mk [(PyVal.str "k", PyVal.int 1)]).remove (PyVal.str "k")).bind
      (fun st1 => st1.remove (PyVal.str "k"))
      = (StorageObject.mk [(PyVal.str "k", PyVal.int 1)]).remove (PyVal.str "k") ∧
    (StorageObject.mk [(PyVal.str "k", PyVal.int 1)]).remove (PyVal.str "x")
      = Except.ok (StorageObject.mk [(PyVal.str "k", PyVal.int 1)]) :=
  ⟨rfl,
    (C7_remove_idempotent (StorageObject.mk [(PyVal.str "k", PyVal.int 1)]) "k" rfl).1,
    (C7_remove_idempotent (StorageObject.mk [(PyVal.str "k", PyVal.int 1)]) "x" rfl).2 rfl⟩

/-- The spec-side composition for C8: apply the single-key `set` for each
pair of `entries` in order. -/
def applySetEach (st : StorageObject) : List (PyVal × PyVal) → Except PyErr StorageObject
  | [] => Except.ok st
  | (k, v) :: rest => (st.set k v).bind (fun st1 => applySetEach st1 rest)

/-- C8: `set_many(entries)` produces exactly the state produced by applying
`set(key, value)` for each pair of `entries` in iteration order, and
`set_many({})` leaves the map unchanged. -/
theorem C8_set_many_refines_set (st : StorageObject) (entries : List (PyVal × PyVal)) :
    st.set_many entries = applySetEach st entries ∧
    st.set_many [] = Except.ok st := by
  refine ⟨?_, rfl⟩
  induction entries generalizing st with
  | nil => rfl
  | cons p rest ih =>
    obtain ⟨k, v⟩ := p
    cases hp : pySetItem st._data k v with
    | ok d =>
      simp [StorageObject.set_many, applySetEach, StorageObject.set, hp,
        Except.map, Except.bind, Bind.bind, ih]
    | error e =>
      simp [StorageObject.set_many, applySetEach, StorageObject.set, hp,
        Except.map, Except.bind, Bind.bind]

/-- C9: on the freshly created (empty) map, `has(k)` is `False`, `get(k, d)`
returns the caller's default `d`, and `get(k)` with the default omitted
returns `None`. -/
theorem C9_fresh_map_default_fallback (s : String) (d : PyVal) :
    StorageObject.init.has (PyVal.str s) = Except.ok false ∧
    StorageObject.init.get (PyVal.str s) d = Except.ok d ∧
    StorageObject.init.get (PyVal.str s) PyVal.none = Except.ok PyVal.none :=
  ⟨rfl, rfl, rfl⟩

/-- C10: frame property — `set` or `remove` on key `s` leaves `has` and `get`
on any distinct key `s'` unchanged. -/
theorem C10_set_remove_frame (st : StorageObject) (s s' : String) (v d : PyVal)
    (h : s ≠ s') :
    (st.set (PyVal.str s) v).bind
      (fun st1 => st1.has (PyVal.str s')) = st.has (PyVal.str s') ∧
    (st.set (PyVal.str s) v).bind
      (fun st1 => st1.get (PyVal.str s') d) = st.get (PyVal.str s') d ∧
    (st.remove (PyVal.str s)).bind
      (fun st1 => st1.has (PyVal.str s')) = st.has (PyVal.str s') ∧
    (st.remove (PyVal.str s)).bind
      (fun st1 => st1.get (PyVal.str s') d) = st.get (PyVal.str s') d := by
  have hne : PyVal.str s ≠ PyVal.str s' := by simpa using h
  refine ⟨?_, ?_, ?_, ?_⟩ <;>
    simp [StorageObject.set, StorageObject.remove, StorageObject.has, StorageObject.get,
      pySetItem, pyPop, pyContains, pyGet, PyVal.hashable, Except.map, Except.bind,
      dictLookup_dictAssign_ne st._data _ _ v hne, dictLookup_dictDelete_ne st._data _ _ hne]

/-- C10 witness: on the concrete store `{"b": 2}`, setting `"a"` does not
change `has("b")`, and removing `"a"` does not change `get("b", None)`. -/
theorem C10_set_remove_frame_witness :
    ("a" : String) ≠ "b" ∧
    ((StorageObject.mk [(PyVal.str "b", PyVal.int 2)]).set (PyVal.str "a") (PyVal.int 1)).bind
      (fun st1 => st1.has (PyVal.str "b"))
      = (StorageObject.mk [(PyVal.str "b", PyVal.int 2)]).has (PyVal.str "b") ∧
    ((StorageObject.mk [(PyVal.str "b", PyVal.int 2)]).remove (PyVal.str "a")).bind
      (fun st1 => st1.get (PyVal.str "b") PyVal.none)
      = (StorageObject.mk [(PyVal.str "b", PyVal.int 2)]).get (PyVal.str "b") PyVal.none :=
  ⟨by decide,
    (C10_set_remove_frame (StorageObject.mk [(PyVal.str "b", PyVal.int 2)]) "a" "b"
      (PyVal.int 1) PyVal.none (by decide)).1,
    (C10_set_remove_frame (StorageObject.mk [(PyVal.str "b", PyVal.int 2)]) "a" "b"
      (PyVal.int 1) PyVal.none (by decide)).2.2.2⟩

end StorageSpec
